import Mathlib

/-!
Verification of a small Star Wars character browser (Next.js tutorial app)
and the router of a companion redux-toolkit lesson.

The JavaScript source is shallowly embedded: components become pure Lean
functions from their inputs to a small HTML tree type, the stateful detail
page becomes an explicit event-step function on a state record, network and
JSON-parse fallibility become `Except`, and `Math.random` becomes a rational
parameter in `[0, 1)`.
-/

namespace SwapiApp

/-- An HTML fragment, as produced by the JSX in the source. -/
inductive Html where
  | text (s : String) : Html
  | elem (tag : String) (children : List Html) : Html
  deriving Repr

/-- A character record, with the fields the source reads from the SWAPI
per-person JSON object (`name`, `mass`, `hair_color`, `skin_color`,
`gender`, `eye_color`, `height`, `birth_year`, `films`, `url`). -/
structure Character where
  name : String
  mass : String
  hair_color : String
  skin_color : String
  gender : String
  eye_color : String
  height : String
  birth_year : String
  films : List String
  url : String
  deriving Repr, DecidableEq

/-- An item of the people-list response (`data.results`); the list page
reads only `name` and `url`. -/
structure Person where
  name : String
  url : String
  deriving Repr, DecidableEq

/-- JavaScript `str.split('/')`: split a character list at every `'/'`,
keeping empty segments. -/
def splitSlash : List Char → List (List Char)
  | [] => [[]]
  | c :: cs =>
    match splitSlash cs with
    | [] => [[]]
    | s :: ss => if c = '/' then [] :: s :: ss else (c :: s) :: ss

/-- `url.split('/')` on a Lean string. -/
def jsSplitSlash (s : String) : List String :=
  (splitSlash s.data).map String.mk

/-- `person.url.split('/')[5]` — the id segment the list page extracts;
`none` models JavaScript `undefined` when the split is too short. -/
def urlId (p : Person) : Option String :=
  (jsSplitSlash p.url)[5]?

/-- The link target built by the list page:
`` `/character/${person.url.split('/')[5]}` ``. -/
def linkTarget (p : Person) : String :=
  "/character/" ++ (urlId p).getD "undefined"

/-- The trailing path segment of a URL: the last non-empty `/`-separated
segment. -/
def trailingSegment (url : String) : Option String :=
  ((jsSplitSlash url).filter (fun seg => seg ≠ "")).getLast?

/-- The list entries rendered by `Home`: one `(display name, link target)`
pair per person, in response order (`people.map(person => ...)`). -/
def homeEntries (people : List Person) : List (String × String) :=
  people.map fun p => (p.name, linkTarget p)

/-- The `<ul>` body of the `Home` page: each person becomes an `<li>`
holding a `<Link>` to `linkTarget` whose text is the person's name. -/
def homeList (people : List Person) : Html :=
  .elem "ul" (people.map fun p =>
    .elem "li" [.elem ("Link href=" ++ linkTarget p) [.text p.name]])

/-- The per-id detail endpoint: `` `https://swapi.dev/api/people/${id}` ``. -/
def characterEndpoint (id : String) : String :=
  "https://swapi.dev/api/people/" ++ id

/-- The fixed list of four templated fact sentences built by
`fetchRandomFact` from the loaded character's fields. -/
def facts (c : Character) : List String :=
  [ c.name ++ " appeared in " ++ toString c.films.length ++ " films.",
    c.name ++ " is " ++ c.height ++ "cm tall.",
    c.name ++ " has " ++ c.eye_color ++ " eyes.",
    c.name ++ "\x27s birth year is " ++ c.birth_year ++ "." ]

/-- `Math.floor(Math.random() * facts.length)` with `facts.length = 4`:
the selected index for a draw `r` of `Math.random()`. -/
def factIndex (r : ℚ) : ℤ := ⌊r * 4⌋

/-- The fact string selected by `fetchRandomFact` for draw `r`:
`facts[i]`, `none` modelling JavaScript `undefined` when out of bounds. -/
def selectedFact (c : Character) (r : ℚ) : Option String :=
  (facts c)[(factIndex r).toNat]?

/-- The component-local state of the `Character` detail page:
`useState(null)` for the character and `useState('')` for the fact line
(`none` in `randomFact` models a JavaScript `undefined` stored by
`setRandomFact`). -/
structure CharState where
  character : Option Character
  randomFact : Option String
  deriving Repr, DecidableEq

/-- The detail page's initial state: `character = null`, `randomFact = ''`. -/
def initState : CharState := ⟨none, some ""⟩

/-- Events in the detail page's lifecycle: the `useEffect` firing with the
route's `id`, the fetch's parsed JSON arriving at `setCharacter`, and a
click on the Show Random Fact button with `Math.random()` draw `r`. -/
inductive CharEvent where
  | mount (id : Option String)
  | fetchResolved (data : Character)
  | showRandomFact (r : ℚ)

/-- One step of the detail page: returns the next state and the list of
network-request URLs the step issues, or `none` when the handler throws
(reading `character.name` while `character` is `null`). -/
def charStep (s : CharState) (e : CharEvent) : Option (CharState × List String) :=
  match e with
  | .mount id =>
    match id with
    | some i => some (s, [characterEndpoint i])
    | none => some (s, [])
  | .fetchResolved data => some ({ s with character := some data }, [])
  | .showRandomFact r =>
    match s.character with
    | none => none
    | some c => some ({ s with randomFact := selectedFact c r }, [])

/-- Run the detail page over a list of events from the initial state,
accumulating all issued requests; `none` when some step throws. -/
def runChar (es : List CharEvent) : Option (CharState × List String) :=
  es.foldl
    (fun acc e => acc.bind fun sr => (charStep sr.1 e).map fun t => (t.1, sr.2 ++ t.2))
    (some (initState, []))

/-- The character held by the most recent successful fetch in a trace. -/
def lastFetch (es : List CharEvent) : Option Character :=
  es.foldl
    (fun acc e => match e with | .fetchResolved d => some d | _ => acc)
    none

/-- The fields the detail page's JSX shows: `character.name`, `.mass`,
`.hair_color`, `.skin_color`, `.gender`, plus the `randomFact` line;
`none` when `character` is `null` (the render throws). -/
def renderCharacter (s : CharState) : Option (String × String × String × String × String × Option String) :=
  s.character.map fun c =>
    (c.name, c.mass, c.hair_color, c.skin_color, c.gender, s.randomFact)

/-- The parsed shape of the people-list response body: `data.results`. -/
structure PeopleJson where
  results : List Person
  deriving Repr, DecidableEq

/-- `fetchPeople`, with the two fallible steps (the network fetch and
`response.json()`) passed in as `Except` values/functions: it awaits each
in turn with no catch and returns `data.results`. -/
def fetchPeople (network : Except String String)
    (json : String → Except String PeopleJson) : Except String (List Person) := do
  let response ← network
  let data ← json response
  pure data.results

/-- `fetchCharacter`, likewise: awaits the fetch and `res.json()` with no
catch and yields the parsed character. -/
def fetchCharacter (network : Except String String)
    (json : String → Except String Character) : Except String Character := do
  let res ← network
  let data ← json res
  pure data

/-- The `About` page component: ignores whatever props it is called with
and returns the fixed markup. -/
def About {α : Type} (_props : α) : Html :=
  .elem "div"
    [ .elem "h1" [.text "About"],
      .elem "p" [.text "This is the Star Wars app built with Next.js, leveraging SWAPI."] ]

/-- The `Contact` page component: ignores whatever props it is called with
and returns the fixed markup. -/
def Contact {α : Type} (_props : α) : Html :=
  .elem "div"
    [ .elem "h1" [.text "Contact"],
      .elem "p" [.text "You can reach us at contact@swapiapp.com."] ]

end SwapiApp

namespace ReduxLesson

/-- The two components the redux-toolkit lesson's `App.js` imports and
routes to. -/
inductive AppComponent where
  | RecipeList
  | RecipeDetail
  deriving Repr, DecidableEq

/-- One `<Route path=... element=... />` of the router. -/
structure AppRoute where
  path : String
  element : AppComponent
  deriving Repr, DecidableEq

/-- The routes declared inside `<Routes>` in `App.js`, in source order. -/
def appRoutes : List AppRoute :=
  [ ⟨"/", .RecipeList⟩,
    ⟨"/recipe/:id", .RecipeDetail⟩ ]

end ReduxLesson

namespace SwapiApp

/-- A sample character used to instantiate theorems at concrete inputs. -/
def sampleCharacter : Character :=
  { name := "Luke Skywalker", mass := "77", hair_color := "blond",
    skin_color := "fair", gender := "male", eye_color := "blue",
    height := "172", birth_year := "19BBY", films := ["A New Hope"],
    url := "https://swapi.dev/api/people/1/" }

/-- C1: for a people-list item whose self-referential URL has the SWAPI
shape (so that `url.split('/')` is `["https:", "", host, "api", "people",
id, ""]` with `id` non-empty), the id segment placed in the entry's link
target equals the trailing path segment of the item's URL. -/
theorem c1_link_id_eq_trailing_segment (p : Person) (theId : String)
    (h : jsSplitSlash p.url = ["https:", "", "swapi.dev", "api", "people", theId, ""])
    (hid : theId ≠ "") :
    linkTarget p = "/character/" ++ theId ∧ trailingSegment p.url = some theId := by
  constructor
  · simp [linkTarget, urlId, h]
  · simp [trailingSegment, h, hid]

/-- C1 witness: instantiation at a concrete SWAPI-shaped URL. -/
theorem c1_witness :
    (jsSplitSlash "https://swapi.dev/api/people/1/"
        = ["https:", "", "swapi.dev", "api", "people", "1", ""] ∧ "1" ≠ "") ∧
    linkTarget ⟨"Luke Skywalker", "https://swapi.dev/api/people/1/"⟩ = "/character/" ++ "1" ∧
    trailingSegment "https://swapi.dev/api/people/1/" = some "1" :=
  ⟨⟨by decide, by decide⟩,
    c1_link_id_eq_trailing_segment ⟨"Luke Skywalker", "https://swapi.dev/api/people/1/"⟩ "1"
      (by decide) (by decide)⟩

/-- C3: the list page produces exactly one entry per item of the response,
in response order, and the entry at each position displays that item's
name (and links to its target). -/
theorem c3_one_entry_per_item (people : List Person) :
    (homeEntries people).length = people.length ∧
    ∀ i : ℕ, (homeEntries people)[i]? = (people[i]?).map fun p => (p.name, linkTarget p) := by
  refine ⟨by simp [homeEntries], fun i => ?_⟩
  simp [homeEntries]

/-- C8: the About and Contact pages ignore whatever they are given and
return the same fixed markup on every call. -/
theorem c8_static_pages_fixed {α β : Type} (p : α) (q : β) :
    About p = About q ∧ Contact p = Contact q ∧
    About p = .elem "div"
      [ .elem "h1" [.text "About"],
        .elem "p" [.text "This is the Star Wars app built with Next.js, leveraging SWAPI."] ] ∧
    Contact p = .elem "div"
      [ .elem "h1" [.text "Contact"],
        .elem "p" [.text "You can reach us at contact@swapiapp.com."] ] :=
  ⟨rfl, rfl, rfl, rfl⟩

/-- The selected index is non-negative and at most 3 whenever the
`Math.random()` draw lies in `[0, 1)`. -/
theorem factIndex_bounds (r : ℚ) (h0 : 0 ≤ r) (h1 : r < 1) :
    0 ≤ factIndex r ∧ factIndex r ≤ 3 := by
  constructor
  · exact Int.floor_nonneg.mpr (by nlinarith)
  · have : factIndex r < 4 := Int.floor_lt.mpr (by push_cast; nlinarith)
    omega

/-- C9: for every draw `r` in `[0, 1)`, the computed index
`Math.floor(r * 4)` lies in `0..3`, so `facts[i]` is in bounds and the
stored fact is never `undefined`. -/
theorem c9_index_in_bounds (c : Character) (r : ℚ) (h0 : 0 ≤ r) (h1 : r < 1) :
    0 ≤ factIndex r ∧ factIndex r ≤ 3 ∧ (selectedFact c r).isSome = true := by
  obtain ⟨hnn, hle⟩ := factIndex_bounds r h0 h1
  refine ⟨hnn, hle, ?_⟩
  have hlen : (facts c).length = 4 := rfl
  have hi : (factIndex r).toNat < (facts c).length := by omega
  simp [selectedFact, List.getElem?_eq_getElem hi]

/-- C9 witness: instantiation at the draw `r = 1/2`. -/
theorem c9_witness :
    ((0 : ℚ) ≤ 1/2 ∧ (1/2 : ℚ) < 1) ∧
    (0 ≤ factIndex (1/2) ∧ factIndex (1/2) ≤ 3 ∧
      (selectedFact sampleCharacter (1/2)).isSome = true) :=
  ⟨⟨by norm_num, by norm_num⟩,
    c9_index_in_bounds sampleCharacter (1/2) (by norm_num) (by norm_num)⟩

/-- C2: for every loaded character and draw `r` in `[0, 1)`, the stored
fact is one of the exactly four templated sentences of `facts`, and the
draw is uniform over the four indices: index `i` is selected precisely when
`r` falls in `[i/4, (i+1)/4)`, an interval of length `1/4` for each `i`. -/
theorem c2_fact_from_four_uniform (c : Character) (r : ℚ) (h0 : 0 ≤ r) (h1 : r < 1) :
    (facts c).length = 4 ∧
    (∃ f, selectedFact c r = some f ∧ f ∈ facts c) ∧
    (∀ i : Fin 4, factIndex r = (i : ℤ) ↔ ((i : ℚ) / 4 ≤ r ∧ r < ((i : ℚ) + 1) / 4)) := by
  obtain ⟨hnn, hle⟩ := factIndex_bounds r h0 h1
  have hlen : (facts c).length = 4 := rfl
  have hi : (factIndex r).toNat < (facts c).length := by omega
  refine ⟨hlen, ⟨(facts c).get ⟨(factIndex r).toNat, hi⟩, ?_, ?_⟩, fun i => ?_⟩
  · simp [selectedFact, List.getElem?_eq_getElem hi]
  · exact List.get_mem _ _ _
  · rw [factIndex, Int.floor_eq_iff]
    constructor
    · rintro ⟨ha, hb⟩
      constructor
      · rw [div_le_iff₀ (by norm_num : (0:ℚ) < 4)]
        exact_mod_cast ha
      · rw [lt_div_iff₀ (by norm_num : (0:ℚ) < 4)]
        push_cast at hb ⊢
        linarith
    · rintro ⟨ha, hb⟩
      rw [div_le_iff₀ (by norm_num : (0:ℚ) < 4)] at ha
      rw [lt_div_iff₀ (by norm_num : (0:ℚ) < 4)] at hb
      constructor
      · exact_mod_cast ha
      · push_cast
        linarith

/-- C2 witness: instantiation at the sample character and draw `r = 1/2`. -/
theorem c2_witness :
    ((0 : ℚ) ≤ 1/2 ∧ (1/2 : ℚ) < 1) ∧
    ((facts sampleCharacter).length = 4 ∧
      (∃ f, selectedFact sampleCharacter (1/2) = some f ∧ f ∈ facts sampleCharacter) ∧
      (∀ i : Fin 4, factIndex (1/2) = (i : ℤ) ↔
        ((i : ℚ) / 4 ≤ 1/2 ∧ (1/2 : ℚ) < ((i : ℚ) + 1) / 4))) :=
  ⟨⟨by norm_num, by norm_num⟩,
    c2_fact_from_four_uniform sampleCharacter (1/2) (by norm_num) (by norm_num)⟩

/-- The value identifiers the detail page module imports: `useParams` from
`next/navigation`, `useState` and `useEffect` from `react`, and `Layout`. -/
def characterPageImports : List String := ["useParams", "useState", "useEffect", "Layout"]

/-- The identifier the component body calls to obtain the route object:
`const router = useRouter();`. -/
def routerCallIdentifier : String := "useRouter"

/-- C4: the identifier the detail page calls to read the route's id is not
among the module's imports, so for every id the component throws a
ReferenceError before issuing the per-id request the claim describes. -/
theorem c4_router_identifier_not_imported :
    routerCallIdentifier ∉ characterPageImports := by decide

/-- The intended mount/fetch behaviour of the detail page, as modelled by
the state machine: mounting with id `id` issues exactly one request, to
the per-id endpoint; the endpoint determines the id (if two endpoint URLs
agree, the ids agree); and once the fetch resolves, the parsed object's
fields are what the page renders. -/
theorem detail_mount_fetch_per_id (s : CharState) (idA idB : String) (data : Character)
    (h : characterEndpoint idA = characterEndpoint idB) :
    charStep s (.mount (some idA)) = some (s, [characterEndpoint idA]) ∧
    idA = idB ∧
    charStep s (.fetchResolved data) = some ({ s with character := some data }, []) ∧
    renderCharacter { s with character := some data }
      = some (data.name, data.mass, data.hair_color, data.skin_color, data.gender, s.randomFact) := by
  refine ⟨rfl, ?_, rfl, rfl⟩
  have hd : (characterEndpoint idA).data = (characterEndpoint idB).data := by rw [h]
  simp only [characterEndpoint, String.data_append] at hd
  exact String.ext (List.append_cancel_left hd)

/-- Instantiation of the mount/fetch behaviour at id `"1"`. -/
theorem detail_mount_fetch_instance :
    characterEndpoint "1" = characterEndpoint "1" ∧
    (charStep initState (.mount (some "1")) = some (initState, [characterEndpoint "1"]) ∧
      "1" = "1" ∧
      charStep initState (.fetchResolved sampleCharacter)
        = some ({ initState with character := some sampleCharacter }, []) ∧
      renderCharacter { initState with character := some sampleCharacter }
        = some (sampleCharacter.name, sampleCharacter.mass, sampleCharacter.hair_color,
            sampleCharacter.skin_color, sampleCharacter.gender, initState.randomFact)) :=
  ⟨rfl, detail_mount_fetch_per_id initState "1" "1" sampleCharacter rfl⟩

/-- Folding the step function from a thrown (`none`) accumulator stays
thrown. -/
theorem runFold_none (es : List CharEvent) :
    es.foldl
      (fun acc e => acc.bind fun sr => (charStep sr.1 e).map fun u => (u.1, sr.2 ++ u.2))
      none = none := by
  induction es with
  | nil => rfl
  | cons e es ih => simpa using ih

/-- Auxiliary induction for C5: from any live state, the `character` field
after a trace is the most recent fetched data, or the starting field if the
trace fetched none. -/
theorem charStep_foldl_character (es : List CharEvent) :
    ∀ (t : CharState) (reqs : List String) (s : CharState) (rs : List String),
    es.foldl
        (fun acc e => acc.bind fun sr => (charStep sr.1 e).map fun u => (u.1, sr.2 ++ u.2))
        (some (t, reqs)) = some (s, rs) →
    s.character =
      es.foldl (fun acc e => match e with | .fetchResolved d => some d | _ => acc) t.character := by
  induction es with
  | nil =>
    intro t reqs s rs h
    simp only [List.foldl_nil, Option.some.injEq, Prod.mk.injEq] at h
    rw [← h.1]
    rfl
  | cons e es ih =>
    intro t reqs s rs h
    cases e with
    | mount id =>
      cases id with
      | some i => exact ih t _ s rs h
      | none => exact ih t _ s rs h
    | fetchResolved d => exact ih _ _ s rs h
    | showRandomFact r =>
      cases hc : t.character with
      | none =>
        have hstep : charStep t (.showRandomFact r) = none := by simp [charStep, hc]
        rw [List.foldl_cons] at h
        simp only [Option.some_bind, hstep, Option.map_none', runFold_none] at h
        exact Option.noConfusion h
      | some c =>
        simp only [List.foldl_cons, Option.some_bind, charStep, hc, Option.map_some] at h
        have := ih _ _ s rs h
        simpa using this

/-- C5: for every trace of the detail page that does not throw, the
`character` state equals the data of the most recent successful fetch, and
the rendered fields are exactly that data's fields (and nothing is rendered
when no fetch has succeeded). -/
theorem c5_rendered_reflects_last_fetch (es : List CharEvent) (s : CharState) (rs : List String)
    (h : runChar es = some (s, rs)) :
    s.character = lastFetch es ∧
    renderCharacter s = (lastFetch es).map fun c =>
      (c.name, c.mass, c.hair_color, c.skin_color, c.gender, s.randomFact) := by
  have h1 : s.character = lastFetch es := charStep_foldl_character es initState [] s rs h
  exact ⟨h1, by simp [renderCharacter, h1]⟩

/-- C5 witness: instantiation at the trace mount-then-fetch. -/
theorem c5_witness :
    runChar [CharEvent.mount (some "1"), CharEvent.fetchResolved sampleCharacter]
        = some (⟨some sampleCharacter, some ""⟩, [characterEndpoint "1"]) ∧
    ((⟨some sampleCharacter, some ""⟩ : CharState).character
        = lastFetch [CharEvent.mount (some "1"), CharEvent.fetchResolved sampleCharacter] ∧
      renderCharacter ⟨some sampleCharacter, some ""⟩
        = (lastFetch [CharEvent.mount (some "1"), CharEvent.fetchResolved sampleCharacter]).map
            fun c => (c.name, c.mass, c.hair_color, c.skin_color, c.gender,
              (⟨some sampleCharacter, some ""⟩ : CharState).randomFact)) :=
  ⟨rfl, c5_rendered_reflects_last_fetch _ _ _ rfl⟩

/-- C6: neither retrieval function catches anything: a network failure or
a `json()` parse failure propagates out of `fetchPeople` and
`fetchCharacter` unchanged, as an unrecovered error. -/
theorem c6_failures_propagate (e body : String)
    (jsonP : String → Except String PeopleJson) (jsonC : String → Except String Character)
    (hp : jsonP body = .error e) (hc : jsonC body = .error e) :
    fetchPeople (.error e) jsonP = .error e ∧
    fetchCharacter (.error e) jsonC = .error e ∧
    fetchPeople (.ok body) jsonP = .error e ∧
    fetchCharacter (.ok body) jsonC = .error e := by
  refine ⟨rfl, rfl, ?_, ?_⟩
  · show (jsonP body >>= fun data => pure data.results) = Except.error e
    rw [hp]; rfl
  · show (jsonC body >>= fun data => pure data) = Except.error e
    rw [hc]; rfl

/-- A parse step that always fails, for instantiating C6. -/
def failJsonP : String → Except String PeopleJson := fun _ => .error "boom"

/-- A parse step that always fails, for instantiating C6. -/
def failJsonC : String → Except String Character := fun _ => .error "boom"

/-- C6 witness: instantiation at an always-failing parse and body `"x"`. -/
theorem c6_witness :
    (failJsonP "x" = .error "boom" ∧ failJsonC "x" = .error "boom") ∧
    (fetchPeople (.error "boom") failJsonP = .error "boom" ∧
      fetchCharacter (.error "boom") failJsonC = .error "boom" ∧
      fetchPeople (.ok "x") failJsonP = .error "boom" ∧
      fetchCharacter (.ok "x") failJsonC = .error "boom") :=
  ⟨⟨rfl, rfl⟩, c6_failures_propagate "boom" "x" failJsonP failJsonC rfl rfl⟩

/-- C7: a click on the random-fact button leaves the `character` state
unchanged (only the component-local `randomFact` field may change) and
issues no network request. -/
theorem c7_fact_click_frame (s : CharState) (r : ℚ) (s' : CharState) (reqs : List String)
    (h : charStep s (.showRandomFact r) = some (s', reqs)) :
    s'.character = s.character ∧ reqs = [] := by
  cases hc : s.character with
  | none => simp [charStep, hc] at h
  | some c =>
    simp only [charStep, hc, Option.some.injEq, Prod.mk.injEq] at h
    exact ⟨by rw [← h.1], h.2.symm⟩

/-- C7 witness: instantiation at a loaded sample character and `r = 1/2`. -/
theorem c7_witness :
    charStep ⟨some sampleCharacter, some ""⟩ (.showRandomFact (1/2))
        = some (⟨some sampleCharacter, selectedFact sampleCharacter (1/2)⟩, []) ∧
    ((⟨some sampleCharacter, selectedFact sampleCharacter (1/2)⟩ : CharState).character
        = (⟨some sampleCharacter, some ""⟩ : CharState).character ∧ ([] : List String) = []) :=
  ⟨rfl, c7_fact_click_frame _ _ _ _ rfl⟩

end SwapiApp

namespace ReduxLesson

/-- C10: the router of `App.js` declares exactly two routes — `"/"`
rendering `RecipeList` and `"/recipe/:id"` rendering `RecipeDetail` — and
no About or Contact path. -/
theorem c10_router_two_routes :
    appRoutes.length = 2 ∧
    appRoutes = [⟨"/", .RecipeList⟩, ⟨"/recipe/:id", .RecipeDetail⟩] ∧
    (∀ rt ∈ appRoutes, rt.path = "/" ∨ rt.path = "/recipe/:id") ∧
    (∀ rt ∈ appRoutes, rt.path ≠ "/about" ∧ rt.path ≠ "/contact") := by
  refine ⟨rfl, rfl, ?_, ?_⟩ <;> decide

end ReduxLesson
